import Mathlib

/-!
Shallow embedding of the ProvidenceX MT5-connector core
(src/services/mt5-connector/src/) and verification of its
natural-language specification.

Python floats are modelled as rationals, Python ints as integers,
optional values as Option, exceptions as an explicit Except layer.
Behaviour of the native MetaTrader5 terminal observed during one call
is passed in as an explicit environment value.
-/

namespace Mt5

/-- Broker per-symbol constraints, as read from MT5 symbol_info
(mt5_client.py uses volume_min, volume_max, volume_step, point,
trade_stops_level and filling_mode). -/
structure SymbolInfo where
  volume_min : ℚ
  volume_max : ℚ
  volume_step : ℚ
  point : ℚ
  trade_stops_level : ℚ
  filling_mode : ℕ
deriving Repr, DecidableEq

/-- Python truthiness default for a numeric field:
`x if x else d` (0 is falsy). -/
def orDefault (x d : ℚ) : ℚ := if x = 0 then d else x

/-- Python `a or b` for two optional floats (None and 0.0 are falsy). -/
def pyOr (a b : Option ℚ) : Option ℚ :=
  match a with
  | some x => if x = 0 then b else some x
  | none => b

/-- Python str.lower() for the ASCII strings used by the connector. -/
def pyLower (s : String) : String := String.mk (s.data.map Char.toLower)

/-- Python round() on a rational: round half to even. -/
def roundHalfEven (q : ℚ) : ℤ :=
  let n : ℤ := ⌊q⌋
  if q - n < 1/2 then n
  else if 1/2 < q - n then n + 1
  else if n % 2 = 0 then n else n + 1

/-- Embedding of MT5Client._normalize_volume
(mt5_client.py lines 1501-1549): reject below minimum, reject if more
than 10 percent over maximum, clamp to maximum if at most 10 percent
over, snap to the step grid with Python round(), and re-check the
snapped value against the minimum. -/
def normalize_volume (requested : ℚ) (si : SymbolInfo) (symbol : String) :
    ℚ × Option String :=
  let min_vol := orDefault si.volume_min (1/100)
  let max_vol := orDefault si.volume_max 100
  let step := orDefault si.volume_step (1/100)
  if requested < min_vol then
    (0, some ("Requested volume " ++ toString requested ++ " below broker minimum "
      ++ toString min_vol ++ " for symbol " ++ symbol))
  else
    let snapAndCheck : ℚ → ℚ × Option String := fun vol =>
      let steps := roundHalfEven (vol / step)
      let vol2 := (steps : ℚ) * step
      if vol2 < min_vol then
        (0, some ("Volume " ++ toString requested ++ " normalized to " ++ toString vol2
          ++ " which is below broker minimum " ++ toString min_vol
          ++ " for symbol " ++ symbol))
      else (vol2, none)
    if requested > max_vol then
      if requested > max_vol * (11/10) then
        (0, some ("Requested volume " ++ toString requested ++ " exceeds broker maximum "
          ++ toString max_vol ++ " for symbol " ++ symbol))
      else snapAndCheck max_vol
    else snapAndCheck requested

/-- Embedding of MT5Client._adjust_stop_loss_take_profit
(mt5_client.py lines 1395-1499): directional sanity check and
minimum-stop-distance enforcement for stop loss and take profit. -/
def adjust_stop_loss_take_profit (si : SymbolInfo) (entry_price : ℚ)
    (requested_sl requested_tp : Option ℚ) (direction : String) :
    Option ℚ × Option ℚ :=
  let point := si.point
  let min_stop_points := if si.trade_stops_level = 0 then 0 else si.trade_stops_level
  let min_stop := min_stop_points * point
  let dir_lower := pyLower direction
  let adjusted_sl : Option ℚ :=
    match requested_sl with
    | some sl =>
      if sl > 0 then
        if dir_lower = "buy" then
          if sl ≥ entry_price then none
          else
            let max_sl := entry_price - min_stop
            if sl > max_sl then some max_sl else some sl
        else
          if sl ≤ entry_price then none
          else
            let min_sl := entry_price + min_stop
            if sl < min_sl then some min_sl else some sl
      else none
    | none => none
  let adjusted_tp : Option ℚ :=
    match requested_tp with
    | some tp =>
      if tp > 0 then
        if dir_lower = "buy" then
          if tp ≤ entry_price then none
          else
            let min_tp := entry_price + min_stop
            if tp < min_tp then some min_tp else some tp
        else
          if tp ≥ entry_price then none
          else
            let max_tp := entry_price - min_stop
            if tp > max_tp then some max_tp else some tp
      else none
    | none => none
  (adjusted_sl, adjusted_tp)

/-- Context dict attached by MT5Client._make_error_response
(mt5_client.py lines 231-265). -/
structure ErrorContext where
  symbol : Option String
  direction : Option String
  order_kind : Option String
  volume : Option ℚ
deriving Repr, DecidableEq

/-- The result-dict shapes returned by the MT5Client trade operations. -/
inductive TradeResult
  /-- _make_success_response (mt5_client.py lines 267-299): a success dict
  with exactly the fields ticket, symbol, volume, price, direction and
  order_kind; it carries no stop-loss, take-profit or retry fields. -/
  | okTrade (ticket : ℤ) (symbol : String) (volume : ℚ) (price : ℚ)
      (direction : String) (order_kind : String)
  /-- bare success dict, as returned by close_trade. -/
  | okSimple
  /-- _make_error_response (mt5_client.py lines 231-265). -/
  | errStruct (error_code : ℤ) (error_message : String) (context : ErrorContext)
  /-- bare error dict with success False and an error string. -/
  | errPlain (error : String)
deriving Repr, DecidableEq

/-- A Python exception value (class name joined with the message). -/
structure PyExc where
  msg : String
deriving Repr, DecidableEq

/-- The exception raised on line 545 (and line 1142) of mt5_client.py:
the 3-parameter method _normalize_volume declared on line 1501 is called
with only 2 arguments, so Python raises a TypeError before the method
body runs. -/
def normalizeVolumeArityError : PyExc :=
  { msg := "MT5Client._normalize_volume() missing 1 required positional argument: symbol" }

/-- A market tick from mt5.symbol_info_tick. -/
structure Tick where
  bid : ℚ
  ask : ℚ
  last : ℚ
  time : ℚ
deriving Repr, DecidableEq

/-- The request dict received by MT5Client.open_trade
(mt5_client.py lines 386-394). -/
structure OpenRequest where
  symbol : String
  direction : String
  order_kind : Option String
  lot_size : ℚ
  entry_price : Option ℚ
  stop_loss : Option ℚ
  take_profit : Option ℚ
  stop_loss_price : Option ℚ
  take_profit_price : Option ℚ
  strategy : Option String
deriving Repr, DecidableEq

/-- Behaviour of the terminal observed during one open_trade call:
results of ensure_initialized, validate_symbol, symbol_info_tick,
symbol_info and last_error. order_send behaviour is not part of the
environment because the submission loop (mt5_client.py lines 616-969)
is unreachable: line 545 raises first (see open_trade_body). -/
structure OpenEnv where
  ensure_ok : Bool
  ensure_msg : String
  symbol_valid : Bool
  actual_symbol : String
  symbol_msg : String
  tick : Option Tick
  symbol_info : Option SymbolInfo
  last_error : ℤ × String
deriving Repr, DecidableEq

/-- try-block body of MT5Client.open_trade (mt5_client.py lines 414-969).
Execution never proceeds past line 545: the statement
normalized_volume = self._normalize_volume(original_volume, symbol_info)
passes 2 arguments to the 3-parameter _normalize_volume of line 1501,
raising TypeError, so the stop-adjustment, filling-mode negotiation and
order_send logic of lines 557-969 is dead code and does not appear here. -/
def open_trade_body (req : OpenRequest) (env : OpenEnv) (symbol : String) :
    Except PyExc TradeResult :=
  let order_kind := pyLower (req.order_kind.getD "market")
  let ctx : ErrorContext :=
    { symbol := some symbol, direction := some req.direction,
      order_kind := some order_kind, volume := some req.lot_size }
  match env.tick with
  | none =>
      .ok (.errStruct (if env.last_error.1 = 0 then -10003 else env.last_error.1)
        ("Failed to get market price for " ++ symbol) ctx)
  | some tick =>
    match env.symbol_info with
    | none => .ok (.errPlain ("Could not get symbol info for " ++ symbol))
    | some _si =>
      let branch : Except TradeResult ℚ :=
        if order_kind = "market" then
          .ok (if pyLower req.direction = "buy" then tick.ask else tick.bid)
        else if order_kind = "limit" ∨ order_kind = "stop" then
          match req.entry_price with
          | none => .error (.errPlain ("entry_price is required for " ++ order_kind ++ " orders"))
          | some ep =>
            if ep ≤ 0 then
              .error (.errPlain ("entry_price is required for " ++ order_kind ++ " orders"))
            else if pyLower req.direction = "buy" then
              if order_kind = "limit" then
                if ep ≥ tick.ask then
                  .error (.errPlain "Invalid pending order: BUY_LIMIT must have price < current ask")
                else .ok ep
              else
                if ep ≤ tick.ask then
                  .error (.errPlain "Invalid pending order: BUY_STOP must have price > current ask")
                else .ok ep
            else
              if order_kind = "limit" then
                if ep ≤ tick.bid then
                  .error (.errPlain "Invalid pending order: SELL_LIMIT must have price > current bid")
                else .ok ep
              else
                if ep ≥ tick.bid then
                  .error (.errPlain "Invalid pending order: SELL_STOP must have price < current bid")
                else .ok ep
        else
          .error (.errStruct (-10007)
            ("Invalid order_kind: " ++ order_kind ++ ". Must be market, limit, or stop") ctx)
      match branch with
      | .error r => .ok r
      | .ok _entry_price_used =>
        -- lines 526-536: second symbol_info fetch, same environment value
        match env.symbol_info with
        | none => .ok (.errPlain ("Could not get symbol info for " ++ symbol))
        | some _si2 =>
          -- line 545: the arity-mismatched _normalize_volume call raises
          .error normalizeVolumeArityError

/-- Embedding of MT5Client.open_trade (mt5_client.py lines 367-982):
ensure connection, resolve symbol, then the try block, whose exceptions
are converted to an error_code -10011 response (lines 972-982). -/
def open_trade (req : OpenRequest) (env : OpenEnv) : TradeResult :=
  if env.ensure_ok = false then
    .errPlain ("MT5 connection failed: " ++ env.ensure_msg)
  else
    let order_kind := pyLower (req.order_kind.getD "market")
    if env.symbol_valid = false then
      .errStruct (-10002) env.symbol_msg
        { symbol := some req.symbol, direction := some req.direction,
          order_kind := some order_kind, volume := some req.lot_size }
    else
      match open_trade_body req env env.actual_symbol with
      | .ok r => r
      | .error e =>
        .errStruct (-10011) ("Exception during open_trade: " ++ e.msg)
          { symbol := some req.symbol, direction := some req.direction,
            order_kind := req.order_kind, volume := some req.lot_size }

/-- A live position as returned by mt5.positions_get. -/
structure Position where
  ticket : ℤ
  symbol : String
  ptype : ℕ
  volume : ℚ
  price_open : ℚ
  sl : ℚ
  tp : ℚ
deriving Repr, DecidableEq

/-- Behaviour of the terminal observed during one partial-close call. -/
structure PartialCloseEnv where
  ensure_ok : Bool
  ensure_msg : String
  positions : Option (List Position)
  symbol_info : Option SymbolInfo
deriving Repr, DecidableEq

/-- Embedding of MT5Client.partial_close_trade
(mt5_client.py lines 1089-1257): percentage validation, position fetch,
volume computation and normalization. The statement on line 1142 passes
2 arguments to the 3-parameter _normalize_volume of line 1501, raising
TypeError, so the redirect-to-full-close check of line 1150 and the
partial-close order_send loop of lines 1154-1249 are dead code; the
exception is converted by the handler of lines 1251-1257. -/
def partial_close_trade (ticket : ℤ) (volume_percent : ℚ) (env : PartialCloseEnv) :
    TradeResult :=
  if env.ensure_ok = false then
    .errPlain ("MT5 connection failed: " ++ env.ensure_msg)
  else
    let body : Except PyExc TradeResult :=
      if volume_percent ≤ 0 ∨ volume_percent ≥ 100 then
        .ok (.errPlain ("volume_percent must be between 0 and 100, got "
          ++ toString volume_percent))
      else
        match env.positions with
        | none => .ok (.errPlain ("Position with ticket " ++ toString ticket ++ " not found"))
        | some [] => .ok (.errPlain ("Position with ticket " ++ toString ticket ++ " not found"))
        | some (position :: _) =>
          let _volume_to_close := position.volume * volume_percent / 100
          match env.symbol_info with
          | none => .ok (.errPlain ("Failed to get symbol info for " ++ position.symbol))
          | some _si =>
            -- line 1142: the arity-mismatched _normalize_volume call raises
            .error normalizeVolumeArityError
    match body with
    | .ok r => r
    | .error e => .errPlain ("Exception during partial_close_trade: " ++ e.msg)

/-- A pending order as returned by mt5.orders_get. -/
structure PendingOrderNative where
  ticket : ℤ
  symbol : String
deriving Repr, DecidableEq

/-- Result struct of mt5.order_send. -/
structure OrderSendResult where
  retcode : ℤ
  order : ℤ
  comment : String
deriving Repr, DecidableEq

/-- mt5.TRADE_RETCODE_DONE. -/
def TRADE_RETCODE_DONE : ℤ := 10009

/-- A cancellation (pending-order remove) request submitted to the
terminal. -/
structure RemoveRequest where
  order : ℤ
deriving Repr, DecidableEq

/-- Behaviour of the terminal observed during one cancel call; native
calls may raise, which is modelled by the Except layer. -/
structure CancelEnv where
  ensure_ok : Bool
  ensure_msg : String
  orders : Except PyExc (Option PendingOrderNative)
  send : Except PyExc OrderSendResult

/-- Modelled from the spec: MT5Client.cancel_order is missing from src —
main.py line 889 calls mt5_client.cancel_order(ticket), but mt5_client.py
defines no such method (only its caller is in src). Following spec
sections 4.5 and 7: fetch the pending order by ticket, fail distinctly
when the ticket is not found, otherwise submit a cancellation request to
the terminal; every native-layer exception is caught at the boundary of
the public operation and converted to a structured failure. The second
component is the list of requests actually submitted to the terminal. -/
def cancel_order (ticket : ℤ) (env : CancelEnv) : TradeResult × List RemoveRequest :=
  if env.ensure_ok = false then
    (.errPlain ("MT5 connection failed: " ++ env.ensure_msg), [])
  else
    match env.orders with
    | .error e => (.errPlain ("Exception during cancel_order: " ++ e.msg), [])
    | .ok none => (.errPlain ("Order with ticket " ++ toString ticket ++ " not found"), [])
    | .ok (some _ord) =>
      match env.send with
      | .error e => (.errPlain ("Exception during cancel_order: " ++ e.msg), [⟨ticket⟩])
      | .ok r =>
        if r.retcode = TRADE_RETCODE_DONE then (.okSimple, [⟨ticket⟩])
        else (.errPlain ("Cancel failed: " ++ r.comment), [⟨ticket⟩])

/-- Outcome of one webhook POST attempt in
OrderEventEmitter._emit_event (order_event_emitter.py lines 53-79):
HTTP 200, a non-200 status, a timeout, or a raised exception. -/
inductive WebhookOutcome
  | ok200
  | status (code : ℕ) (text : String)
  | timeout
  | exc (msg : String)
deriving Repr, DecidableEq

/-- Observable outcome of OrderEventEmitter._emit_event: the returned
boolean, the seconds slept between attempts, and the number of POST
attempts actually made. -/
structure EmitResult where
  success : Bool
  sleeps : List ℕ
  attempts : ℕ
deriving Repr, DecidableEq

/-- The attempt loop of OrderEventEmitter._emit_event
(order_event_emitter.py lines 53-82): attempt numbers count from
`attempt`; after a failed attempt the task sleeps 2 ^ attempt seconds,
but only while attempt < retry_count - 1; when the loop ends the event
is dropped and False is returned. -/
def emit_attempts (outcome : ℕ → WebhookOutcome) (retry_count attempt fuel : ℕ) :
    EmitResult :=
  match fuel with
  | 0 => { success := false, sleeps := [], attempts := 0 }
  | fuel' + 1 =>
    match outcome attempt with
    | .ok200 => { success := true, sleeps := [], attempts := 1 }
    | _ =>
      if attempt < retry_count - 1 then
        let rest := emit_attempts outcome retry_count (attempt + 1) fuel'
        { success := rest.success, sleeps := 2 ^ attempt :: rest.sleeps,
          attempts := rest.attempts + 1 }
      else { success := false, sleeps := [], attempts := 1 }

/-- Embedding of OrderEventEmitter._emit_event
(order_event_emitter.py lines 34-82) with its default retry_count of 3:
returns False immediately when the emitter is disabled or no webhook URL
is configured, otherwise runs the attempt loop. -/
def emit_event (enabled url_set : Bool) (outcome : ℕ → WebhookOutcome) : EmitResult :=
  if enabled = false then { success := false, sleeps := [], attempts := 0 }
  else if url_set = false then { success := false, sleeps := [], attempts := 0 }
  else emit_attempts outcome 3 0 3

/-- One buffered price tick of the order-flow accumulator
(orderflow_accumulator.py TickData). -/
structure OFTick where
  bid : ℚ
  ask : ℚ
  volume : ℚ
  time : ℚ
deriving Repr, DecidableEq

/-- Front-eviction loop of add_tick (orderflow_accumulator.py lines
49-51): pop entries from the front while they are older than the
cutoff. -/
def evictFront (cutoff : ℚ) : List OFTick → List OFTick
  | [] => []
  | t :: rest => if t.time < cutoff then evictFront cutoff rest else t :: rest

/-- Embedding of OrderFlowAccumulator.add_tick for one symbol buffer
(orderflow_accumulator.py lines 37-51): append the tick, then evict
entries older than the inserted time minus the lookback window from the
front. -/
def add_tick (buffer : List OFTick) (t : OFTick) (lookback : ℚ) : List OFTick :=
  evictFront (t.time - lookback) (buffer ++ [t])

/-- The buffer obtained by inserting the given ticks in order into an
empty buffer. -/
def applyTicks (ticks : List OFTick) (lookback : ℚ) : List OFTick :=
  ticks.foldl (fun b t => add_tick b t lookback) []

/-- Python `t.volume or 1` (0 is falsy). -/
def effVolume (v : ℚ) : ℚ := if v = 0 then 1 else v

/-- Python round(x, 2). -/
def round2 (q : ℚ) : ℚ := (roundHalfEven (q * 100) : ℚ) / 100

/-- Python round(x, 1). -/
def round1 (q : ℚ) : ℚ := (roundHalfEven (q * 10) : ℚ) / 10

/-- Consecutive-pair loop of compute_order_flow
(orderflow_accumulator.py lines 90-109): attribute each tick volume to
the ask/buy side when the mid price rose, to the bid/sell side when it
fell, and split it 50/50 when unchanged. Returns (bid_volume,
ask_volume). -/
def pairVolumes (recent : List OFTick) : ℚ × ℚ :=
  (recent.zip recent.tail).foldl
    (fun acc p =>
      let prev := p.1
      let curr := p.2
      let prev_mid := (prev.bid + prev.ask) / 2
      let curr_mid := (curr.bid + curr.ask) / 2
      let tv := effVolume curr.volume
      if curr_mid > prev_mid then (acc.1, acc.2 + tv)
      else if curr_mid < prev_mid then (acc.1 + tv, acc.2)
      else (acc.1 + tv / 2, acc.2 + tv / 2))
    (0, 0)

/-- One detected large order (orderflow_accumulator.py lines 139-149). -/
structure LargeOrder where
  volume : ℚ
  side : String
  price : ℚ
deriving Repr, DecidableEq

/-- The metrics dict built by compute_order_flow
(orderflow_accumulator.py lines 151-162), without the symbol and
timestamp strings. -/
structure OrderFlowMetrics where
  bid_volume : ℚ
  ask_volume : ℚ
  delta : ℚ
  delta_sign : String
  imbalance_buy_pct : ℚ
  imbalance_sell_pct : ℚ
  large_orders : List LargeOrder
  tick_count : ℕ
deriving Repr, DecidableEq

/-- Embedding of OrderFlowAccumulator.compute_order_flow
(orderflow_accumulator.py lines 53-162) for one symbol buffer, with the
wall-clock time `now` made explicit. Returns none (insufficient data)
when the whole buffer holds fewer than 5 ticks, or when no buffered tick
lies within the window. -/
def compute_order_flow (buffer : List OFTick) (now window : ℚ) :
    Option OrderFlowMetrics :=
  if buffer.length < 5 then none
  else if (buffer.filter (fun t => decide (now - window ≤ t.time))).length = 0 then none
  else
    let recent := buffer.filter (fun t => decide (now - window ≤ t.time))
    Option.some <|
      let pv := pairVolumes recent
      let avg : ℚ := (recent.foldl (fun s t => s + effVolume t.volume) 0) / (recent.length : ℚ)
      let bid_volume := if pv.1 = 0 ∧ pv.2 = 0 then avg / 2 else pv.1
      let ask_volume := if pv.1 = 0 ∧ pv.2 = 0 then avg / 2 else pv.2
      let total := bid_volume + ask_volume
      let delta := ask_volume - bid_volume
      let ibuy := if total > 0 then ask_volume / total * 100 else 50
      let isell := if total > 0 then bid_volume / total * 100 else 50
      let dsign := if delta > 0 then "buying_pressure"
        else if delta < 0 then "selling_pressure" else "neutral"
      let threshold := avg * 20
      let large := (recent.filter
        (fun t => decide (t.volume ≠ 0) && decide (threshold ≤ t.volume))).map
        (fun t =>
          let side := if t.ask > t.bid then "buy" else "sell"
          ({ volume := t.volume, side := side,
             price := if side = "buy" then t.ask else t.bid } : LargeOrder))
      { bid_volume := round2 bid_volume, ask_volume := round2 ask_volume,
        delta := round2 delta, delta_sign := dsign,
        imbalance_buy_pct := round1 ibuy, imbalance_sell_pct := round1 isell,
        large_orders := large, tick_count := recent.length }

/-- The body returned by GET /api/v1/order-flow: either the computed
metrics, or the neutral-default dict of main.py lines 634-644 (which
carries no tick_count field, hence the Option). -/
structure OrderFlowResponse where
  bid_volume : ℚ
  ask_volume : ℚ
  delta : ℚ
  delta_sign : String
  imbalance_buy_pct : ℚ
  imbalance_sell_pct : ℚ
  large_orders : List LargeOrder
  tick_count : Option ℕ
deriving Repr, DecidableEq

/-- The neutral-default response body of main.py lines 634-644: zero
volumes, zero delta with neutral sign, 50/50 imbalance, no large
orders. -/
def neutral_default_response : OrderFlowResponse :=
  { bid_volume := 0, ask_volume := 0, delta := 0, delta_sign := "neutral",
    imbalance_buy_pct := 50, imbalance_sell_pct := 50, large_orders := [],
    tick_count := none }

/-- Embedding of the order-flow endpoint result construction
(main.py lines 627-646): the neutral-default body when
compute_order_flow reports insufficient data, the metrics otherwise. -/
def get_order_flow_body (buffer : List OFTick) (now window : ℚ) : OrderFlowResponse :=
  match compute_order_flow buffer now window with
  | none => neutral_default_response
  | some m =>
    { bid_volume := m.bid_volume, ask_volume := m.ask_volume, delta := m.delta,
      delta_sign := m.delta_sign, imbalance_buy_pct := m.imbalance_buy_pct,
      imbalance_sell_pct := m.imbalance_sell_pct, large_orders := m.large_orders,
      tick_count := some m.tick_count }

/-- The fields of the pydantic OpenTradeRequest after per-field
validation (models.py lines 9-46): symbol uppercased, direction
lowercased, order_kind one of market/limit/stop, lot_size positive. -/
structure OpenTradeRequestModel where
  symbol : String
  direction : String
  order_kind : String
  lot_size : ℚ
  entry_price : Option ℚ
  stop_loss : Option ℚ
  take_profit : Option ℚ
  strategy : String
  strategy_id : Option String
  stop_loss_price : Option ℚ
  take_profit_price : Option ℚ
deriving Repr, DecidableEq

/-- Embedding of the model_validator OpenTradeRequest.validate_fields
(models.py lines 48-87): order_kind is always set (it is a required
Literal field), entry_price is required for limit/stop orders, the
alternative stop_loss_price/take_profit_price fields are mapped onto
stop_loss/take_profit when those are absent, and strategy falls back to
strategy_id and then to the literal low. -/
def validate_fields (r : OpenTradeRequestModel) : Except String OpenTradeRequestModel :=
  if (r.order_kind = "limit" ∨ r.order_kind = "stop") ∧ (r.entry_price.getD 0) ≤ 0 then
    .error ("entry_price is required for " ++ r.order_kind ++ " orders")
  else
    .ok { r with
      stop_loss := if r.stop_loss = none ∧ r.stop_loss_price ≠ none then
        r.stop_loss_price else r.stop_loss,
      take_profit := if r.take_profit = none ∧ r.take_profit_price ≠ none then
        r.take_profit_price else r.take_profit,
      strategy := if r.strategy = "" then
        (match r.strategy_id with
         | some sid => if sid = "" then "low" else sid
         | none => "low")
        else r.strategy }

/-- The stop loss effectively carried by a request after the pydantic
mapping of the alternative stop_loss_price field. -/
def effSL (r : OpenTradeRequestModel) : Option ℚ :=
  if r.stop_loss = none then r.stop_loss_price else r.stop_loss

/-- Outcome of the open-trade endpoint guard: either an HTTP rejection,
or the request dict handed to MT5Client.open_trade. -/
inductive EndpointOutcome
  | reject (status : ℕ) (detail : String)
  | dispatch (req : OpenRequest)
deriving Repr, DecidableEq

/-- Embedding of the open-trade endpoint up to the executor call
(main.py lines 233-287): pydantic model validation (a 422 on failure),
then the stop-loss guard of lines 254-262 (a 400 when stop_loss is
absent or non-positive), then the request dict of lines 273-282 handed
to mt5_client.open_trade. -/
def open_trade_endpoint (r : OpenTradeRequestModel) : EndpointOutcome :=
  match validate_fields r with
  | .error msg => .reject 422 msg
  | .ok v =>
    let rejectMsg := "Stop Loss is required but was not provided or invalid. Trade rejected for safety."
    match v.stop_loss with
    | none => .reject 400 rejectMsg
    | some s =>
      if s ≤ 0 then .reject 400 rejectMsg
      else
        .dispatch
          { symbol := v.symbol, direction := pyLower v.direction,
            order_kind := some v.order_kind, lot_size := v.lot_size,
            entry_price := v.entry_price, stop_loss := some s,
            take_profit := v.take_profit, stop_loss_price := none,
            take_profit_price := none, strategy := some v.strategy }

/-- C4 counterexample constraints: minimum 1, maximum 4.6, step 1. -/
def c4_symbol_info : SymbolInfo :=
  { volume_min := 1, volume_max := 23/5, volume_step := 1, point := 1/100,
    trade_stops_level := 0, filling_mode := 1 }

/-- Supporting lemma: Python round() never rounds more than half a unit
upwards. -/
theorem roundHalfEven_le_add_half (q : ℚ) : (roundHalfEven q : ℚ) ≤ q + 1/2 := by
  have h1 : ((⌊q⌋ : ℤ) : ℚ) ≤ q := Int.floor_le q
  have h2 : q < ⌊q⌋ + 1 := Int.lt_floor_add_one q
  simp only [roundHalfEven]
  split_ifs with ha hb hc
  · linarith
  · push_cast
    linarith
  · linarith
  · push_cast
    linarith

/-- C4 counterexample: the claim that normalize_volume never returns a
value outside [min, max] fails — requesting exactly the broker maximum
4.6 with step 1 snaps to 5, which is accepted although it exceeds the
maximum. -/
theorem normalize_volume_above_max_cex :
    normalize_volume (23/5) c4_symbol_info "EURUSD" = (5, none) ∧
    c4_symbol_info.volume_max < 5 := by
  have hf : ⌊(23/5 : ℚ) / 1⌋ = 4 := by
    norm_num [Int.floor_eq_iff]
  constructor
  · simp only [normalize_volume, c4_symbol_info, orDefault, roundHalfEven, hf]
    norm_num
  · simp only [c4_symbol_info]
    norm_num

/-- C4 amended: for positive broker constraints, normalize_volume either
rejects (volume 0 with an error message) or returns a volume that is at
least the minimum, on the step grid, and at most the maximum plus half a
step (the snap to the grid is not re-checked against the maximum, so the
result may exceed it by up to half a step); a request strictly below the
minimum is always rejected, a request more than 10 percent over the
maximum is rejected, a request at most 10 percent over the maximum is
clamped to the maximum before snapping, and an in-range request is
snapped to the nearest step multiple, with a final re-check against the
minimum only. -/
theorem normalize_volume_amended (requested : ℚ) (si : SymbolInfo) (s : String)
    (hmin : 0 < si.volume_min) (hstep : 0 < si.volume_step)
    (hminmax : si.volume_min ≤ si.volume_max) :
    (requested < si.volume_min →
      (normalize_volume requested si s).1 = 0 ∧
      (normalize_volume requested si s).2.isSome = true) ∧
    (si.volume_max * (11/10) < requested →
      (normalize_volume requested si s).1 = 0 ∧
      (normalize_volume requested si s).2.isSome = true) ∧
    ((normalize_volume requested si s).2 = none →
      si.volume_min ≤ (normalize_volume requested si s).1 ∧
      (normalize_volume requested si s).1 ≤ si.volume_max + si.volume_step / 2 ∧
      ∃ k : ℤ, (normalize_volume requested si s).1 = (k : ℚ) * si.volume_step) ∧
    (si.volume_min ≤ requested → requested ≤ si.volume_max →
      (normalize_volume requested si s).2 = none →
      (normalize_volume requested si s).1 =
        (roundHalfEven (requested / si.volume_step) : ℚ) * si.volume_step) ∧
    (si.volume_max < requested → requested ≤ si.volume_max * (11/10) →
      (normalize_volume requested si s).2 = none →
      (normalize_volume requested si s).1 =
        (roundHalfEven (si.volume_max / si.volume_step) : ℚ) * si.volume_step) := by
  have hmin0 : ¬ si.volume_min = 0 := ne_of_gt hmin
  have hmax : 0 < si.volume_max := lt_of_lt_of_le hmin hminmax
  have hmax0 : ¬ si.volume_max = 0 := ne_of_gt hmax
  have hstep0 : ¬ si.volume_step = 0 := ne_of_gt hstep
  have hsnap : ∀ vol : ℚ, vol ≤ si.volume_max →
      (roundHalfEven (vol / si.volume_step) : ℚ) * si.volume_step ≤
        si.volume_max + si.volume_step / 2 := by
    intro vol hvol
    have h1 := roundHalfEven_le_add_half (vol / si.volume_step)
    have h2 : (roundHalfEven (vol / si.volume_step) : ℚ) * si.volume_step ≤
        (vol / si.volume_step + 1/2) * si.volume_step :=
      mul_le_mul_of_nonneg_right h1 (le_of_lt hstep)
    have h3 : (vol / si.volume_step + 1/2) * si.volume_step = vol + si.volume_step / 2 := by
      field_simp
      ring
    rw [h3] at h2
    linarith
  simp only [normalize_volume, orDefault, if_neg hmin0, if_neg hmax0, if_neg hstep0]
  refine ⟨?_, ?_, ?_, ?_, ?_⟩
  · intro h
    rw [if_pos h]
    simp
  · intro h
    have hgt : requested > si.volume_max := by nlinarith
    have hnl : ¬ requested < si.volume_min := by
      push_neg
      nlinarith
    rw [if_neg hnl]
    simp only [if_pos hgt, if_pos h]
    simp
  · intro h
    by_cases h1 : requested < si.volume_min
    · rw [if_pos h1] at h
      simp at h
    · rw [if_neg h1] at h ⊢
      by_cases h2 : requested > si.volume_max
      · rw [if_pos h2] at h ⊢
        by_cases h3 : requested > si.volume_max * (11/10)
        · rw [if_pos h3] at h
          simp at h
        · rw [if_neg h3] at h ⊢
          by_cases h4 : (roundHalfEven (si.volume_max / si.volume_step) : ℚ) *
              si.volume_step < si.volume_min
          · simp only [if_pos h4] at h
            simp at h
          · simp only [if_neg h4] at h ⊢
            push_neg at h4
            exact ⟨h4, hsnap si.volume_max le_rfl, ⟨roundHalfEven (si.volume_max / si.volume_step), rfl⟩⟩
      · rw [if_neg h2] at h ⊢
        by_cases h4 : (roundHalfEven (requested / si.volume_step) : ℚ) *
            si.volume_step < si.volume_min
        · simp only [if_pos h4] at h
          simp at h
        · simp only [if_neg h4] at h ⊢
          push_neg at h4
          push_neg at h2
          exact ⟨h4, hsnap requested h2, ⟨roundHalfEven (requested / si.volume_step), rfl⟩⟩
  · intro hlo hhi h
    have h1 : ¬ requested < si.volume_min := not_lt.mpr hlo
    have h2 : ¬ requested > si.volume_max := not_lt.mpr hhi
    rw [if_neg h1] at h ⊢
    rw [if_neg h2] at h ⊢
    by_cases h4 : (roundHalfEven (requested / si.volume_step) : ℚ) *
        si.volume_step < si.volume_min
    · simp only [if_pos h4] at h
      simp at h
    · simp only [if_neg h4]
  · intro hlo hhi h
    have h1 : ¬ requested < si.volume_min := by
      push_neg
      linarith
    have h3 : ¬ requested > si.volume_max * (11/10) := not_lt.mpr hhi
    rw [if_neg h1] at h ⊢
    rw [if_pos hlo] at h ⊢
    rw [if_neg h3] at h ⊢
    by_cases h4 : (roundHalfEven (si.volume_max / si.volume_step) : ℚ) *
        si.volume_step < si.volume_min
    · simp only [if_pos h4] at h
      simp at h
    · simp only [if_neg h4]

/-- C4 witness: the amended theorem applied to a request of 0.10 lots
with constraints min 0.01, max 50, step 0.01, whose normalization
succeeds and returns 0.10 itself. -/
theorem normalize_volume_amended_witness :
    (normalize_volume (1/10)
      ({ volume_min := 1/100, volume_max := 50, volume_step := 1/100, point := 1,
         trade_stops_level := 0, filling_mode := 1 } : SymbolInfo) "EURUSD").2 = none ∧
    (1/100 : ℚ) ≤ (normalize_volume (1/10)
      ({ volume_min := 1/100, volume_max := 50, volume_step := 1/100, point := 1,
         trade_stops_level := 0, filling_mode := 1 } : SymbolInfo) "EURUSD").1 := by
  have hf : ⌊(1/10 : ℚ) / (1/100)⌋ = 10 := by
    norm_num [Int.floor_eq_iff]
  have hval : normalize_volume (1/10)
      ({ volume_min := 1/100, volume_max := 50, volume_step := 1/100, point := 1,
         trade_stops_level := 0, filling_mode := 1 } : SymbolInfo) "EURUSD" = (1/10, none) := by
    simp only [normalize_volume, orDefault, roundHalfEven, hf]
    norm_num
  have h := (normalize_volume_amended (1/10)
    ({ volume_min := 1/100, volume_max := 50, volume_step := 1/100, point := 1,
       trade_stops_level := 0, filling_mode := 1 } : SymbolInfo) "EURUSD"
    (by norm_num) (by norm_num) (by norm_num)).2.2.1
  rw [hval] at h ⊢
  exact ⟨rfl, (h rfl).1⟩

/-- Supporting lemma: the truthiness guard on trade_stops_level is the
identity under the multiplication by point. -/
theorem min_stop_points_mul (si : SymbolInfo) :
    (if si.trade_stops_level = 0 then 0 else si.trade_stops_level) * si.point =
      si.trade_stops_level * si.point := by
  split_ifs with h
  · rw [h]
  · rfl

/-- C5: adjust_stop_loss_take_profit never returns a stop on the wrong
side of entry; a wrong-side stop is dropped (returned as absent), not
corrected to the other side; and a correctly-sided positive stop nearer
to entry than the broker minimum stop distance is moved to exactly
entry minus the minimum distance (stop loss, buy), entry plus it (take
profit, buy), and the reverse for a sell. -/
theorem adjust_stops_directional (si : SymbolInfo) (entry : ℚ) (sl tp : Option ℚ) :
    (∀ s, (adjust_stop_loss_take_profit si entry sl tp "buy").1 = some s → s < entry) ∧
    (∀ s, (adjust_stop_loss_take_profit si entry sl tp "buy").2 = some s → entry < s) ∧
    (∀ s, (adjust_stop_loss_take_profit si entry sl tp "sell").1 = some s → entry < s) ∧
    (∀ s, (adjust_stop_loss_take_profit si entry sl tp "sell").2 = some s → s < entry) ∧
    (∀ v, sl = some v → entry ≤ v → (adjust_stop_loss_take_profit si entry sl tp "buy").1 = none) ∧
    (∀ v, tp = some v → v ≤ entry → (adjust_stop_loss_take_profit si entry sl tp "buy").2 = none) ∧
    (∀ v, sl = some v → v ≤ entry → (adjust_stop_loss_take_profit si entry sl tp "sell").1 = none) ∧
    (∀ v, tp = some v → entry ≤ v → (adjust_stop_loss_take_profit si entry sl tp "sell").2 = none) ∧
    (∀ v, sl = some v → 0 < v → v < entry → entry - si.trade_stops_level * si.point < v →
      (adjust_stop_loss_take_profit si entry sl tp "buy").1 =
        some (entry - si.trade_stops_level * si.point)) ∧
    (∀ v, tp = some v → 0 < v → entry < v → v < entry + si.trade_stops_level * si.point →
      (adjust_stop_loss_take_profit si entry sl tp "buy").2 =
        some (entry + si.trade_stops_level * si.point)) ∧
    (∀ v, sl = some v → 0 < v → entry < v → v < entry + si.trade_stops_level * si.point →
      (adjust_stop_loss_take_profit si entry sl tp "sell").1 =
        some (entry + si.trade_stops_level * si.point)) ∧
    (∀ v, tp = some v → 0 < v → v < entry → entry - si.trade_stops_level * si.point < v →
      (adjust_stop_loss_take_profit si entry sl tp "sell").2 =
        some (entry - si.trade_stops_level * si.point)) := by
  simp only [adjust_stop_loss_take_profit, min_stop_points_mul si,
    show pyLower "buy" = "buy" from rfl, show pyLower "sell" = "sell" from rfl]
  refine ⟨?_, ?_, ?_, ?_, ?_, ?_, ?_, ?_, ?_, ?_, ?_, ?_⟩
  · intro s hs
    cases sl with
    | none => simp at hs
    | some v =>
      simp only [] at hs
      split_ifs at hs with h1 h2 h3 <;> simp_all <;> linarith
  · intro s hs
    cases tp with
    | none => simp at hs
    | some v =>
      simp only [] at hs
      split_ifs at hs with h1 h2 h3 <;> simp_all <;> linarith
  · intro s hs
    cases sl with
    | none => simp at hs
    | some v =>
      simp only [] at hs
      split_ifs at hs with h1 h2 h3 <;> simp_all <;> linarith
  · intro s hs
    cases tp with
    | none => simp at hs
    | some v =>
      simp only [] at hs
      split_ifs at hs with h1 h2 h3 <;> simp_all <;> linarith
  · intro v hv hside
    subst hv
    simp only []
    split_ifs with h1 h2 h3 <;> simp_all <;> linarith
  · intro v hv hside
    subst hv
    simp only []
    split_ifs with h1 h2 h3 <;> simp_all <;> linarith
  · intro v hv hside
    subst hv
    simp only []
    split_ifs with h1 h2 h3 <;> simp_all <;> linarith
  · intro v hv hside
    subst hv
    simp only []
    split_ifs with h1 h2 h3 <;> simp_all <;> linarith
  · intro v hv hpos hside hnear
    subst hv
    simp only []
    split_ifs with h1 h2 h3 <;> simp_all <;> linarith
  · intro v hv hpos hside hnear
    subst hv
    simp only []
    split_ifs with h1 h2 h3 <;> simp_all <;> linarith
  · intro v hv hpos hside hnear
    subst hv
    simp only []
    split_ifs with h1 h2 h3 <;> simp_all <;> linarith
  · intro v hv hpos hside hnear
    subst hv
    simp only []
    split_ifs with h1 h2 h3 <;> simp_all <;> linarith

/-- C5 witness: the theorem applied with minimum stop distance 5 at
entry 100: a buy stop loss at 99 (too near) moves to exactly 95, and a
buy stop loss at 104 (wrong side) is dropped. -/
theorem adjust_stops_directional_witness :
    (adjust_stop_loss_take_profit
      ({ volume_min := 1/100, volume_max := 50, volume_step := 1/100, point := 1,
         trade_stops_level := 5, filling_mode := 1 } : SymbolInfo)
      100 (some 99) (some 104) "buy").1 = some 95 ∧
    (adjust_stop_loss_take_profit
      ({ volume_min := 1/100, volume_max := 50, volume_step := 1/100, point := 1,
         trade_stops_level := 5, filling_mode := 1 } : SymbolInfo)
      100 (some 104) (some 99) "buy").1 = none := by
  constructor
  · have h := (adjust_stops_directional
      ({ volume_min := 1/100, volume_max := 50, volume_step := 1/100, point := 1,
         trade_stops_level := 5, filling_mode := 1 } : SymbolInfo)
      100 (some 99) (some 104)).2.2.2.2.2.2.2.2.1
      99 rfl (by norm_num) (by norm_num) (by norm_num)
    rw [h]
    norm_num
  · exact (adjust_stops_directional
      ({ volume_min := 1/100, volume_max := 50, volume_step := 1/100, point := 1,
         trade_stops_level := 5, filling_mode := 1 } : SymbolInfo)
      100 (some 104) (some 99)).2.2.2.2.1
      104 rfl (by norm_num)

/-- C1 scenario request: a market buy of 0.10 lots with neither stop
loss nor take profit supplied. -/
def c1_request : OpenRequest :=
  { symbol := "EURUSD", direction := "buy", order_kind := some "market",
    lot_size := 1/10, entry_price := none, stop_loss := none, take_profit := none,
    stop_loss_price := none, take_profit_price := none, strategy := some "scalp" }

/-- C1 scenario terminal behaviour: connected, symbol valid, live tick
and symbol constraints min 0.01, max 50, step 0.01 all available. -/
def c1_env : OpenEnv :=
  { ensure_ok := true, ensure_msg := "Already connected", symbol_valid := true,
    actual_symbol := "EURUSD", symbol_msg := "Symbol valid",
    tick := some { bid := 108/100, ask := 10801/10000, last := 0, time := 0 },
    symbol_info := some
      { volume_min := 1/100, volume_max := 50, volume_step := 1/100,
        point := 1/100000, trade_stops_level := 10, filling_mode := 1 },
    last_error := (0, "") }

/-- C1 evaluated at the scenario input: open_trade does not succeed with
a naked order — the arity-mismatched _normalize_volume call of line 545
raises TypeError, which the handler of lines 972-982 converts into the
error response with local code -10011. -/
theorem open_trade_c1_failing_eval :
    open_trade c1_request c1_env =
      .errStruct (-10011)
        ("Exception during open_trade: " ++ normalizeVolumeArityError.msg)
        { symbol := some "EURUSD", direction := some "buy",
          order_kind := some "market", volume := some (1/10) } := rfl

/-- C6 scenario request: a market buy with stop loss and take profit
supplied (the broker would reject the stops with retcode 10016). -/
def c6_request : OpenRequest :=
  { symbol := "EURUSD", direction := "buy", order_kind := some "market",
    lot_size := 1/10, entry_price := none, stop_loss := some (107/100),
    take_profit := some (109/100), stop_loss_price := none, take_profit_price := none,
    strategy := some "scalp" }

/-- C6 scenario terminal behaviour. order_send behaviour (first reply
retcode 10016, retry reply done) is irrelevant: execution raises before
any submission. -/
def c6_env : OpenEnv :=
  { ensure_ok := true, ensure_msg := "Already connected", symbol_valid := true,
    actual_symbol := "EURUSD", symbol_msg := "Symbol valid",
    tick := some { bid := 108/100, ask := 10801/10000, last := 0, time := 0 },
    symbol_info := some
      { volume_min := 1/100, volume_max := 50, volume_step := 1/100,
        point := 1/100000, trade_stops_level := 10, filling_mode := 1 },
    last_error := (0, "") }

/-- C6 evaluated at the scenario input: no order is ever submitted, so
the invalid-stops retry of mt5_client.py lines 727-808 cannot occur —
open_trade fails first with the TypeError raised on line 545, converted
to the error response with local code -10011. -/
theorem open_trade_c6_failing_eval :
    open_trade c6_request c6_env =
      .errStruct (-10011)
        ("Exception during open_trade: " ++ normalizeVolumeArityError.msg)
        { symbol := some "EURUSD", direction := some "buy",
          order_kind := some "market", volume := some (1/10) } := rfl

/-- C2 scenario terminal behaviour: connected, a live buy position of
0.10 lots, and broker constraints min 0.01, max 50, step 0.1 — the step
under which 60 percent of 0.10 lots (0.06) would snap to exactly 0.10
and trigger the claimed redirect to a full close. -/
def c2_env : PartialCloseEnv :=
  { ensure_ok := true, ensure_msg := "Already connected",
    positions := some
      [{ ticket := 12345, symbol := "EURUSD", ptype := 0,
         volume := 1/10, price_open := 108/100, sl := 0, tp := 0 }],
    symbol_info := some
      { volume_min := 1/100, volume_max := 50, volume_step := 1/10,
        point := 1/100000, trade_stops_level := 10, filling_mode := 1 } }

/-- C2 evaluated at the scenario input (close 60 percent of a 0.10-lot
position): the redirect-to-full-close logic of mt5_client.py line 1150
is never reached — the arity-mismatched _normalize_volume call of line
1142 raises TypeError, converted by the handler of lines 1251-1257. -/
theorem partial_close_c2_failing_eval :
    partial_close_trade 12345 60 c2_env =
      .errPlain ("Exception during partial_close_trade: " ++ normalizeVolumeArityError.msg) := by
  simp only [partial_close_trade, c2_env]
  norm_num

/-- C3: cancel_order (modelled from the spec, see its doc comment)
fetches the pending order by ticket, returns a distinct not-found
failure when the ticket does not exist, otherwise submits exactly one
cancellation request to the terminal, and converts every native-layer
exception into a structured failure instead of letting it escape. -/
theorem cancel_order_spec (ticket : ℤ) (env : CancelEnv)
    (henv : env.ensure_ok = true) :
    (env.orders = .ok none →
      cancel_order ticket env =
        (.errPlain ("Order with ticket " ++ toString ticket ++ " not found"), [])) ∧
    (∀ o r, env.orders = .ok (some o) → env.send = .ok r →
      r.retcode = TRADE_RETCODE_DONE →
      cancel_order ticket env = (.okSimple, [⟨ticket⟩])) ∧
    (∀ e, env.orders = .error e →
      cancel_order ticket env =
        (.errPlain ("Exception during cancel_order: " ++ e.msg), [])) ∧
    (∀ o e, env.orders = .ok (some o) → env.send = .error e →
      cancel_order ticket env =
        (.errPlain ("Exception during cancel_order: " ++ e.msg), [⟨ticket⟩])) ∧
    (∀ o, env.orders = .ok (some o) → (cancel_order ticket env).2 = [⟨ticket⟩]) ∧
    ((env.orders = .ok none ∨ ∃ e, env.orders = .error e) →
      (cancel_order ticket env).2 = []) := by
  refine ⟨?_, ?_, ?_, ?_, ?_, ?_⟩
  · intro h
    simp [cancel_order, henv, h]
  · intro o r ho hr hret
    simp [cancel_order, henv, ho, hr, hret]
  · intro e he
    simp [cancel_order, henv, he]
  · intro o e ho he
    simp [cancel_order, henv, ho, he]
  · intro o ho
    rcases hs : env.send with e | r
    · simp [cancel_order, henv, ho, hs]
    · by_cases hr : r.retcode = TRADE_RETCODE_DONE
      · simp [cancel_order, henv, ho, hs, hr]
      · simp [cancel_order, henv, ho, hs, hr]
  · rintro (h | ⟨e, h⟩)
    · simp [cancel_order, henv, h]
    · simp [cancel_order, henv, h]

/-- C3 witness: the theorem applied to a ticket that the terminal does
not know, yielding the distinct not-found failure and no submission. -/
theorem cancel_order_spec_witness :
    cancel_order 777
      ({ ensure_ok := true, ensure_msg := "", orders := .ok none,
         send := .ok { retcode := 10009, order := 777, comment := "done" } } : CancelEnv) =
      (.errPlain ("Order with ticket " ++ toString (777 : ℤ) ++ " not found"), []) :=
  (cancel_order_spec 777
    ({ ensure_ok := true, ensure_msg := "", orders := .ok none,
       send := .ok { retcode := 10009, order := 777, comment := "done" } } : CancelEnv)
    rfl).1 rfl

/-- C7 counterexample: when the webhook replies HTTP 500 on every
attempt, _emit_event makes 3 POST attempts in total — the initial
attempt plus 2 retries, not 3 retries — sleeping 1s and then 2s between
them; a 4s backoff wait never occurs. -/
theorem emit_event_backoff_cex :
    emit_event true true (fun _ => .status 500 "Internal Server Error") =
      { success := false, sleeps := [1, 2], attempts := 3 } ∧
    (emit_event true true (fun _ => .status 500 "Internal Server Error")).sleeps ≠ [1, 2, 4] := by
  constructor
  · rfl
  · intro h
    rw [show (emit_event true true (fun _ => .status 500 "Internal Server Error")).sleeps
      = [1, 2] from rfl] at h
    simp at h

/-- Supporting lemma: one failed attempt of the _emit_event loop. -/
theorem emit_attempts_fail (outcome : ℕ → WebhookOutcome) (rc a f : ℕ)
    (h : outcome a ≠ .ok200) :
    emit_attempts outcome rc a (f + 1) =
      if a < rc - 1 then
        { success := (emit_attempts outcome rc (a + 1) f).success,
          sleeps := 2 ^ a :: (emit_attempts outcome rc (a + 1) f).sleeps,
          attempts := (emit_attempts outcome rc (a + 1) f).attempts + 1 }
      else { success := false, sleeps := [], attempts := 1 } := by
  rw [emit_attempts]
  cases ho : outcome a with
  | ok200 => exact absurd ho h
  | status c t => rfl
  | timeout => rfl
  | exc m => rfl

/-- C7 amended: whenever every attempt fails (non-200 status, timeout,
or transport error), the POST is attempted up to 3 times in total — the
initial attempt plus 2 retries — with exponential backoff sleeps of 1s
and then 2s between attempts; the event is then dropped and the emitter
returns failure instead of raising. -/
theorem emit_event_amended (outcome : ℕ → WebhookOutcome)
    (h : ∀ i, i < 3 → outcome i ≠ .ok200) :
    emit_event true true outcome =
      { success := false, sleeps := [1, 2], attempts := 3 } := by
  have h0 := h 0 (by norm_num)
  have h1 := h 1 (by norm_num)
  have h2 := h 2 (by norm_num)
  have e2 : emit_attempts outcome 3 2 1 =
      { success := false, sleeps := [], attempts := 1 } := by
    rw [emit_attempts_fail outcome 3 2 0 h2]
    norm_num
  have e1 : emit_attempts outcome 3 1 2 =
      { success := false, sleeps := [2], attempts := 2 } := by
    rw [emit_attempts_fail outcome 3 1 1 h1, if_pos (by norm_num), e2]
    norm_num
  have e0 : emit_attempts outcome 3 0 3 =
      { success := false, sleeps := [1, 2], attempts := 3 } := by
    rw [emit_attempts_fail outcome 3 0 2 h0, if_pos (by norm_num), e1]
    norm_num
  simpa [emit_event] using e0

/-- C7 witness: the amended theorem applied to an endpoint that times
out on every attempt. -/
theorem emit_event_amended_witness :
    emit_event true true (fun _ => .timeout) =
      { success := false, sleeps := [1, 2], attempts := 3 } :=
  emit_event_amended (fun _ => .timeout) (fun _ _ => by simp)

/-- Supporting lemma: the eviction loop returns a suffix of its input. -/
theorem evictFront_eq_drop (c : ℚ) (l : List OFTick) :
    ∃ k, evictFront c l = l.drop k := by
  induction l with
  | nil => exact ⟨0, rfl⟩
  | cons t rest ih =>
    by_cases h : t.time < c
    · obtain ⟨k, hk⟩ := ih
      exact ⟨k + 1, by simp [evictFront, h, hk]⟩
    · exact ⟨0, by simp [evictFront, h]⟩

/-- Supporting lemma: one insertion keeps a sublist of append. -/
theorem add_tick_sublist (b : List OFTick) (t : OFTick) (lb : ℚ) :
    List.Sublist (add_tick b t lb) (b ++ [t]) := by
  obtain ⟨k, hk⟩ := evictFront_eq_drop (t.time - lb) (b ++ [t])
  rw [add_tick, hk]
  exact List.drop_sublist k (b ++ [t])

/-- Supporting lemma: folding insertions over any start buffer yields a
sublist of the start buffer followed by the inserted ticks. -/
theorem foldl_add_tick_sublist (ticks : List OFTick) (lb : ℚ) :
    ∀ b, List.Sublist (ticks.foldl (fun acc t => add_tick acc t lb) b) (b ++ ticks) := by
  induction ticks with
  | nil => intro b; simp
  | cons t ts ih =>
    intro b
    have h1 := ih (add_tick b t lb)
    have h2 : List.Sublist (add_tick b t lb ++ ts) ((b ++ [t]) ++ ts) :=
      (add_tick_sublist b t lb).append_right ts
    have h3 : (b ++ [t]) ++ ts = b ++ t :: ts := by simp
    rw [h3] at h2
    simpa using h1.trans h2

/-- Supporting lemma: the accumulated buffer is a sublist of the
inserted ticks. -/
theorem applyTicks_sublist (ticks : List OFTick) (lb : ℚ) :
    List.Sublist (applyTicks ticks lb) ticks := by
  simpa [applyTicks] using foldl_add_tick_sublist ticks lb []

/-- Supporting lemma: when compute_order_flow returns metrics, their
tick_count is the number of buffered ticks inside the window. -/
theorem compute_order_flow_tick_count (buffer : List OFTick) (now window : ℚ)
    (m : OrderFlowMetrics) (h : compute_order_flow buffer now window = some m) :
    m.tick_count = buffer.countP (fun t => decide (now - window ≤ t.time)) := by
  by_cases h1 : buffer.length < 5
  · rw [compute_order_flow, if_pos h1] at h
    exact absurd h (by simp)
  · by_cases h2 : (buffer.filter (fun t => decide (now - window ≤ t.time))).length = 0
    · rw [compute_order_flow, if_neg h1, if_pos h2] at h
      exact absurd h (by simp)
    · rw [compute_order_flow, if_neg h1, if_neg h2] at h
      injection h with h3
      rw [← h3, List.countP_eq_length_filter]

/-- C8 counterexample ticks: five ticks at seconds 0 to 4. -/
def c8_ticks : List OFTick :=
  [{ bid := 1, ask := 1, volume := 1, time := 0 },
   { bid := 1, ask := 1, volume := 1, time := 1 },
   { bid := 1, ask := 1, volume := 1, time := 2 },
   { bid := 1, ask := 1, volume := 1, time := 3 },
   { bid := 1, ask := 1, volume := 1, time := 4 }]

/-- C8 counterexample: with the 5 buffered ticks of c8_ticks and a
60-second window evaluated at second 62, only 3 ticks lie within the
window, yet compute_order_flow returns metrics (tick_count 3) instead of
reporting insufficient data — the at-least-5 check is applied to the
whole buffer, not to the window. -/
theorem compute_order_flow_window_cex :
    Option.map OrderFlowMetrics.tick_count
      (compute_order_flow (applyTicks c8_ticks 60) 62 60) = some 3 ∧ (3 : ℕ) < 5 := by
  have happ : applyTicks c8_ticks 60 = c8_ticks := by
    norm_num [applyTicks, c8_ticks, add_tick, evictFront]
  rw [happ]
  refine ⟨?_, by norm_num⟩
  rw [compute_order_flow]
  norm_num [c8_ticks, List.filter]

/-- C8 amended: compute_order_flow reports insufficient data exactly
when the whole buffer holds fewer than 5 ticks or when no buffered tick
lies within the window; when it does return metrics, the buffer holds at
least 5 ticks and tick_count is the number of ticks within the window
(at least 1, but possibly fewer than 5); when it reports insufficient
data, the order-flow query returns the neutral-default shape: zero
bid/ask volumes, zero delta with neutral sign, 50/50 imbalance
percentages, and an empty large-order list. -/
theorem order_flow_insufficient_amended (buffer : List OFTick) (now window : ℚ) :
    (buffer.length < 5 → compute_order_flow buffer now window = none) ∧
    ((buffer.filter (fun t => decide (now - window ≤ t.time))).length = 0 →
      compute_order_flow buffer now window = none) ∧
    (∀ m, compute_order_flow buffer now window = some m →
      5 ≤ buffer.length ∧ 1 ≤ m.tick_count ∧
      m.tick_count = (buffer.filter (fun t => decide (now - window ≤ t.time))).length) ∧
    (compute_order_flow buffer now window = none →
      get_order_flow_body buffer now window = neutral_default_response) := by
  refine ⟨?_, ?_, ?_, ?_⟩
  · intro h
    rw [compute_order_flow, if_pos h]
  · intro h
    by_cases h1 : buffer.length < 5
    · rw [compute_order_flow, if_pos h1]
    · rw [compute_order_flow, if_neg h1, if_pos h]
  · intro m h
    have hcount := compute_order_flow_tick_count buffer now window m h
    by_cases h1 : buffer.length < 5
    · rw [compute_order_flow, if_pos h1] at h
      exact absurd h (by simp)
    · by_cases h2 : (buffer.filter (fun t => decide (now - window ≤ t.time))).length = 0
      · rw [compute_order_flow, if_neg h1, if_pos h2] at h
        exact absurd h (by simp)
      · refine ⟨not_lt.mp h1, ?_, ?_⟩
        · rw [hcount, List.countP_eq_length_filter]
          exact Nat.one_le_iff_ne_zero.mpr h2
        · rw [hcount, List.countP_eq_length_filter]
  · intro h
    rw [get_order_flow_body, h]

/-- C8 witness: the amended theorem applied to a buffer of only 3 ticks
inside the last 60 seconds — insufficient data, so the query returns the
neutral-default shape. -/
theorem order_flow_insufficient_amended_witness :
    compute_order_flow
      [({ bid := 1, ask := 1, volume := 1, time := 10 } : OFTick),
       { bid := 1, ask := 1, volume := 1, time := 20 },
       { bid := 1, ask := 1, volume := 1, time := 30 }] 60 60 = none ∧
    get_order_flow_body
      [({ bid := 1, ask := 1, volume := 1, time := 10 } : OFTick),
       { bid := 1, ask := 1, volume := 1, time := 20 },
       { bid := 1, ask := 1, volume := 1, time := 30 }] 60 60 = neutral_default_response := by
  have h := order_flow_insufficient_amended
    [({ bid := 1, ask := 1, volume := 1, time := 10 } : OFTick),
     { bid := 1, ask := 1, volume := 1, time := 20 },
     { bid := 1, ask := 1, volume := 1, time := 30 }] 60 60
  have hnone := h.1 (by norm_num)
  exact ⟨hnone, h.2.2.2 hnone⟩

/-- C9 counterexample ticks: an out-of-order tick stamped at second 200
arrives first, followed by five ticks stamped at second 100. -/
def c9_ticks : List OFTick :=
  [{ bid := 1, ask := 1, volume := 1, time := 200 },
   { bid := 1, ask := 1, volume := 1, time := 100 },
   { bid := 1, ask := 1, volume := 1, time := 100 },
   { bid := 1, ask := 1, volume := 1, time := 100 },
   { bid := 1, ask := 1, volume := 1, time := 100 },
   { bid := 1, ask := 1, volume := 1, time := 100 }]

/-- C9 is false as stated: inserting c9_ticks (which span more than the
60-second window) and computing at now = 150 yields tick_count 6,
although only 5 of the inserted ticks have timestamps within
[now - 60, now] = [90, 150] — the tick stamped at 200, in the future of
the computation time, is still counted by the window filter. -/
theorem tick_count_bound_cex :
    Option.map OrderFlowMetrics.tick_count
      (compute_order_flow (applyTicks c9_ticks 60) 150 60) = some 6 ∧
    c9_ticks.countP (fun t => decide (150 - 60 ≤ t.time ∧ t.time ≤ 150)) = 5 := by
  have happ : applyTicks c9_ticks 60 = c9_ticks := by
    norm_num [applyTicks, c9_ticks, add_tick, evictFront]
  rw [happ]
  constructor
  · rw [compute_order_flow]
    norm_num [c9_ticks, List.filter]
  · rw [List.countP_eq_length_filter]
    norm_num [c9_ticks, List.filter]

/-- C9 amended: eviction always removes only front entries (one insert
maps the buffer to a suffix of buffer-plus-new-tick); with non-decreasing
timestamps the buffer stays time-ordered; and provided no inserted tick
is stamped later than the computation time now, tick_count never exceeds
the number of inserted ticks with timestamps within [now - window, now]
(a tick stamped in the future of now is still counted by the window
filter, which has no upper bound). -/
theorem tick_buffer_amended (ticks : List OFTick) (lookback window now : ℚ)
    (hnow : ∀ t ∈ ticks, t.time ≤ now) :
    (∀ b t, ∃ k, add_tick b t lookback = (b ++ [t]).drop k) ∧
    (List.Pairwise (fun a b => a.time ≤ b.time) ticks →
      List.Pairwise (fun a b => a.time ≤ b.time) (applyTicks ticks lookback)) ∧
    (∀ m, compute_order_flow (applyTicks ticks lookback) now window = some m →
      m.tick_count ≤ ticks.countP (fun t => decide (now - window ≤ t.time ∧ t.time ≤ now))) := by
  refine ⟨?_, ?_, ?_⟩
  · intro b t
    simpa [add_tick] using evictFront_eq_drop (t.time - lookback) (b ++ [t])
  · intro hp
    exact hp.sublist (applyTicks_sublist ticks lookback)
  · intro m h
    rw [compute_order_flow_tick_count (applyTicks ticks lookback) now window m h]
    have hs := (applyTicks_sublist ticks lookback).countP_le
      (fun t => decide (now - window ≤ t.time))
    have heq : ticks.countP (fun t => decide (now - window ≤ t.time)) =
        ticks.countP (fun t => decide (now - window ≤ t.time ∧ t.time ≤ now)) := by
      apply List.countP_congr
      intro a ha
      simp only [decide_eq_true_eq]
      exact ⟨fun hw => ⟨hw, hnow a ha⟩, fun hw => hw.1⟩
    exact le_trans hs (le_of_eq heq)

/-- C9 witness ticks: five in-order ticks at seconds 0 to 4. -/
def c9w_ticks : List OFTick :=
  [{ bid := 1, ask := 1, volume := 1, time := 0 },
   { bid := 1, ask := 1, volume := 1, time := 1 },
   { bid := 1, ask := 1, volume := 1, time := 2 },
   { bid := 1, ask := 1, volume := 1, time := 3 },
   { bid := 1, ask := 1, volume := 1, time := 4 }]

/-- C9 witness: the amended theorem applied to c9w_ticks computed at
second 50 with a 60-second window: tick_count is 5 and is bounded by the
5 inserted ticks inside the window. -/
theorem tick_buffer_amended_witness :
    Option.map OrderFlowMetrics.tick_count
      (compute_order_flow (applyTicks c9w_ticks 60) 50 60) = some 5 ∧
    (5 : ℕ) ≤ c9w_ticks.countP (fun t => decide (50 - 60 ≤ t.time ∧ t.time ≤ 50)) := by
  have happ : applyTicks c9w_ticks 60 = c9w_ticks := by
    norm_num [applyTicks, c9w_ticks, add_tick, evictFront]
  have heval : Option.map OrderFlowMetrics.tick_count
      (compute_order_flow (applyTicks c9w_ticks 60) 50 60) = some 5 := by
    rw [happ, compute_order_flow]
    norm_num [c9w_ticks, List.filter]
  refine ⟨heval, ?_⟩
  obtain ⟨m, hm, hmc⟩ : ∃ m, compute_order_flow (applyTicks c9w_ticks 60) 50 60 = some m ∧
      m.tick_count = 5 := by
    rcases ho : compute_order_flow (applyTicks c9w_ticks 60) 50 60 with _ | m
    · rw [ho] at heval
      simp at heval
    · rw [ho] at heval
      simp at heval
      exact ⟨m, rfl, heval⟩
  have h := (tick_buffer_amended c9w_ticks 60 60 50
    (by intro t ht; fin_cases ht <;> norm_num)).2.2 m hm
  rw [hmc] at h
  exact h

/-- Supporting lemma: model validation maps the alternative
stop_loss_price field onto stop_loss exactly as effSL describes. -/
theorem validate_fields_stop_loss (r v : OpenTradeRequestModel)
    (h : validate_fields r = .ok v) : v.stop_loss = effSL r := by
  rw [validate_fields] at h
  by_cases h1 : (r.order_kind = "limit" ∨ r.order_kind = "stop") ∧ (r.entry_price.getD 0) ≤ 0
  · rw [if_pos h1] at h
    exact absurd h (by simp)
  · rw [if_neg h1] at h
    injection h with h2
    rw [← h2]
    simp only [effSL]
    rcases hsl : r.stop_loss with _ | x <;> rcases hslp : r.stop_loss_price with _ | y <;>
      simp [hsl, hslp]

/-- C10: every request to the public open-trade endpoint whose stop
loss (after mapping the alternative stop_loss_price field) is absent or
non-positive is rejected with a client-side validation error (HTTP 400,
or 422 at model validation) before the order executor is invoked; and
every request the endpoint does hand to the executor carries a strictly
positive stop loss, for every order kind. -/
theorem open_endpoint_requires_sl (r : OpenTradeRequestModel) :
    ((∀ s, effSL r = some s → s ≤ 0) →
      (∀ q, open_trade_endpoint r ≠ .dispatch q) ∧
      ∃ st d, open_trade_endpoint r = .reject st d ∧ (st = 400 ∨ st = 422)) ∧
    (∀ q, open_trade_endpoint r = .dispatch q → ∃ s, q.stop_loss = some s ∧ 0 < s) := by
  constructor
  · intro hsl
    rcases hv : validate_fields r with msg | v
    · constructor
      · intro q hq
        rw [open_trade_endpoint, hv] at hq
        simp at hq
      · exact ⟨422, msg, by rw [open_trade_endpoint, hv], Or.inr rfl⟩
    · have hvs := validate_fields_stop_loss r v hv
      rcases hs : v.stop_loss with _ | s
      · constructor
        · intro q hq
          rw [open_trade_endpoint, hv] at hq
          simp [hs] at hq
        · refine ⟨400,
            "Stop Loss is required but was not provided or invalid. Trade rejected for safety.",
            ?_, Or.inl rfl⟩
          rw [open_trade_endpoint, hv]
          simp [hs]
      · have hsle : s ≤ 0 := hsl s (by rw [← hvs]; exact hs)
        constructor
        · intro q hq
          rw [open_trade_endpoint, hv] at hq
          simp [hs, if_pos hsle] at hq
        · refine ⟨400,
            "Stop Loss is required but was not provided or invalid. Trade rejected for safety.",
            ?_, Or.inl rfl⟩
          rw [open_trade_endpoint, hv]
          simp [hs, if_pos hsle]
  · intro q hq
    rw [open_trade_endpoint] at hq
    rcases hv : validate_fields r with msg | v
    · rw [hv] at hq
      simp at hq
    · rw [hv] at hq
      rcases hs : v.stop_loss with _ | s
      · simp [hs] at hq
      · simp only [hs] at hq
        by_cases hle : s ≤ 0
        · simp [if_pos hle] at hq
        · simp only [if_neg hle] at hq
          injection hq with hq2
          rw [← hq2]
          exact ⟨s, rfl, not_le.mp hle⟩

/-- C10 witness: the theorem applied to a market request whose only
stop information is a non-positive stop_loss_price, which the endpoint
rejects with HTTP 400 before reaching the executor. -/
theorem open_endpoint_requires_sl_witness :
    (∀ q, open_trade_endpoint
      ({ symbol := "EURUSD", direction := "buy", order_kind := "market",
         lot_size := 1/10, entry_price := none, stop_loss := none,
         take_profit := none, strategy := "low", strategy_id := none,
         stop_loss_price := some (-1), take_profit_price := none } :
        OpenTradeRequestModel) ≠ .dispatch q) ∧
    ∃ st d, open_trade_endpoint
      ({ symbol := "EURUSD", direction := "buy", order_kind := "market",
         lot_size := 1/10, entry_price := none, stop_loss := none,
         take_profit := none, strategy := "low", strategy_id := none,
         stop_loss_price := some (-1), take_profit_price := none } :
        OpenTradeRequestModel) = .reject st d ∧ (st = 400 ∨ st = 422) :=
  (open_endpoint_requires_sl
    ({ symbol := "EURUSD", direction := "buy", order_kind := "market",
       lot_size := 1/10, entry_price := none, stop_loss := none,
       take_profit := none, strategy := "low", strategy_id := none,
       stop_loss_price := some (-1), take_profit_price := none } :
      OpenTradeRequestModel)).1
    (by
      intro s hs
      rw [effSL] at hs
      simp at hs
      rw [← hs]
      norm_num)

end Mt5

